import Mathlib

/-!
Verification of the static JSON server in serve-videos.py.

The script subclasses Python's SimpleHTTPRequestHandler, overriding
end_headers (to attach three fixed CORS/cache headers) and do_GET (to
rewrite the path "/" to "/videos.json"), changes the working directory
to the directory containing the script at startup, prints three lines,
and serves forever on port 8000.

The handler inherited from the standard library is not part of the
repository; its behavior (file resolution, 200/404 responses, MIME
inference, the 501 fallback for unknown methods) is modelled from the
specification where needed, and each such definition says so in its
doc comment.  Everything else is translated directly from the source.
-/

namespace ServeVideos

/-- A byte, as a natural number below 256.  File contents are byte lists. -/
abbrev Byte := Nat

/-- The disk visible to the server: a map from absolute file paths to the
bytes stored there (`none` when no such file exists). -/
def Disk := String → Option (List Byte)

/-- An inbound HTTP request, reduced to the parts the script inspects:
the method and the path. -/
structure Request where
  method : String
  path : String
deriving DecidableEq

/-- An HTTP response: status code, header list (in emission order), body. -/
structure Response where
  status : Nat
  headers : List (String × String)
  body : List Byte
deriving DecidableEq

/-- The state a running server holds: the disk, the process working
directory, and the port of the listening socket (spec section 3: the only
state is the listening socket and the working-directory path). -/
structure ServerState where
  disk : Disk
  cwd : String
  port : Nat

/-- PORT = 8000 (src/serve-videos.py line 15). -/
def PORT : Nat := 8000

/-- The three fixed headers sent by the overridden end_headers
(src/serve-videos.py lines 22-24), in the order they are sent. -/
def corsHeaders : List (String × String) :=
  [("Access-Control-Allow-Origin", "*"),
   ("Access-Control-Allow-Methods", "GET"),
   ("Cache-Control", "no-store, no-cache, must-revalidate")]

/-- CORSRequestHandler.end_headers (src/serve-videos.py lines 21-25):
every response's buffered headers are flushed through this override, which
appends the three fixed headers after whatever headers the handler already
queued, then lets the superclass finish the header block. -/
def end_headers (base : List (String × String)) : List (String × String) :=
  base ++ corsHeaders

/-- Whether a path begins with "/", i.e. is absolute in POSIX terms. -/
def startsWithSlash (p : String) : Bool :=
  match p.data with
  | c :: _ => c = '/'
  | [] => false

/-- The path with one leading "/" removed, used when resolving a request
path as a relative path under the working directory. -/
def stripLeadingSlash (p : String) : String :=
  match p.data with
  | '/' :: rest => String.mk rest
  | _ => p

/-- Modelled from the spec: file resolution of SimpleHTTPRequestHandler
(standard library, not under src/) -- "the rewritten path is resolved as a
relative path under a fixed base directory".  The request path, without
its leading "/", is looked up relative to the working directory. -/
def resolve (st : ServerState) (path : String) : Option (List Byte) :=
  st.disk (st.cwd ++ "/" ++ stripLeadingSlash path)

/-- Modelled from the spec: MIME-type inference from the file extension,
done by the inherited SimpleHTTPRequestHandler (not under src/).  Only the
extensions relevant here are tabulated; unknown extensions get a generic
default. -/
def guess_type (path : String) : String :=
  if List.isSuffixOf ".json".data path.data then "application/json"
  else if List.isSuffixOf ".html".data path.data then "text/html"
  else "application/octet-stream"

/-- Modelled from the spec: the minimal body of a 404 response ("respond
with status 404 and a minimal body"); its exact bytes are irrelevant to
every claim. -/
def notFoundBody : List Byte := [52, 48, 52]

/-- Modelled from the spec: the inherited SimpleHTTPRequestHandler.do_GET
(standard library, not under src/).  Success: status 200, the file's bytes
as body, Content-Type inferred from the extension, Content-Length the
exact byte count.  Missing file: status 404 with a minimal body.  Either
way the headers are flushed through the overridden end_headers. -/
def super_do_GET (st : ServerState) (path : String) : Response :=
  match resolve st path with
  | some bytes =>
      { status := 200
        headers := end_headers
          [("Content-Type", guess_type path),
           ("Content-Length", toString bytes.length)]
        body := bytes }
  | none =>
      { status := 404
        headers := end_headers [("Content-Type", "text/html;charset=utf-8")]
        body := notFoundBody }

/-- Modelled from the spec: the inherited do_HEAD (standard library, not
under src/): same status and headers as a GET of the same path, no body. -/
def super_do_HEAD (st : ServerState) (path : String) : Response :=
  { super_do_GET st path with body := [] }

/-- Modelled from the spec: a request whose method has no handler falls
back to the default of the underlying library, which rejects it with 501
(method not supported); the rejection is still emitted through the
overridden end_headers. -/
def unsupported_method (m : String) : Response :=
  { status := 501
    headers := end_headers [("Content-Type", "text/html;charset=utf-8")]
    body := m.data.map Char.toNat }

/-- The rewrite in CORSRequestHandler.do_GET (src/serve-videos.py lines
28-29): if self.path == "/" then self.path = "/videos.json". -/
def rewritePath (p : String) : String :=
  if p = "/" then "/videos.json" else p

/-- CORSRequestHandler.do_GET (src/serve-videos.py lines 27-30): rewrite
the path, then run the inherited do_GET. -/
def do_GET (st : ServerState) (path : String) : Response :=
  super_do_GET st (rewritePath path)

/-- Dispatch of one request to the handler.  The class overrides only
do_GET; HEAD uses the inherited do_HEAD on the untouched path, and any
other method falls to the library's 501 rejection. -/
def handle (st : ServerState) (req : Request) : Response :=
  if req.method = "GET" then do_GET st req.path
  else if req.method = "HEAD" then super_do_HEAD st req.path
  else unsupported_method req.method

/-- One filesystem operation performed while serving. -/
inductive FSOp where
  | read (path : String)
  | write (path : String) (bytes : List Byte)
deriving DecidableEq

/-- The filesystem operations performed while handling one request,
modelled from the spec: the inherited do_GET and do_HEAD open the resolved
file for reading ("the file is read-only, never written"); no branch of
the handler writes. -/
def handleOps (st : ServerState) (req : Request) : List FSOp :=
  if req.method = "GET" then
    [FSOp.read (st.cwd ++ "/" ++ stripLeadingSlash (rewritePath req.path))]
  else if req.method = "HEAD" then
    [FSOp.read (st.cwd ++ "/" ++ stripLeadingSlash req.path)]
  else []

/-- Request handling as a state transformer.  The body of
CORSRequestHandler contains no assignment to process state: handling
produces a response and leaves the server state (disk, working directory,
listening port) as it was. -/
def handleST (st : ServerState) (req : Request) : Response × ServerState :=
  (handle st req, st)

/-- os.path.abspath, modelled for the paths that occur here: an absolute
path is returned as is, a relative one is joined to the caller's current
working directory.  (Collapsing of "." and ".." segments is not needed
for any claim and is not modelled.) -/
def abspath (callerCwd p : String) : String :=
  if startsWithSlash p then p else callerCwd ++ "/" ++ p

/-- The characters of a path up to and including its last "/"; empty when
the path has no "/".  Helper for `dirname`. -/
def takeUpToLastSlash : List Char → List Char
  | [] => []
  | c :: cs =>
      if '/' ∈ cs then c :: takeUpToLastSlash cs
      else if c = '/' then [c] else []

/-- os.path.dirname, modelled after posixpath.dirname: everything before
the last "/", with trailing slashes stripped unless the head consists of
slashes only. -/
def dirname (p : String) : String :=
  let head := takeUpToLastSlash p.data
  if head.all (fun c => c = '/') then String.mk head
  else String.mk ((head.reverse.dropWhile (fun c => c = '/')).reverse)

/-- The startup of the script (src/serve-videos.py line 18):
os.chdir(os.path.dirname(os.path.abspath(FILE))) runs at import time,
before the handler class is defined and before any request is served, so
every request is handled in a state whose working directory is the
directory containing the script. -/
def startup (callerCwd scriptFile : String) (d : Disk) : ServerState :=
  { disk := d, cwd := dirname (abspath callerCwd scriptFile), port := PORT }

/-- The three lines printed at startup (src/serve-videos.py lines 34-36),
in order. -/
def startupLines : List String :=
  ["Starting HTTP server on port " ++ toString PORT ++ "...",
   "Videos JSON available at: http://localhost:" ++ toString PORT ++ "/videos.json",
   "Press Ctrl+C to stop the server"]

/-- A disk with no files at all. -/
def emptyDisk : Disk := fun _ => none

/-- A concrete server state over the empty disk, used by witnesses. -/
def emptyState : ServerState :=
  { disk := emptyDisk, cwd := "/srv", port := PORT }

/-- A disk holding exactly /srv/videos.json with body "\x7b\x7d". -/
def jsonDisk : Disk :=
  fun p => if p = "/srv/videos.json" then some [123, 125] else none

/-- A concrete server state over `jsonDisk`, used by witnesses. -/
def jsonState : ServerState :=
  { disk := jsonDisk, cwd := "/srv", port := PORT }

/-! ## Helper lemmas -/

theorem mem_end_headers {h : String × String} (hh : h ∈ corsHeaders)
    (base : List (String × String)) : h ∈ end_headers base :=
  List.mem_append.mpr (Or.inr hh)

theorem super_do_GET_headers_shape (st : ServerState) (p : String) :
    ∃ base, (super_do_GET st p).headers = end_headers base := by
  unfold super_do_GET
  cases hr : resolve st p with
  | some bytes => exact ⟨_, rfl⟩
  | none => exact ⟨_, rfl⟩

theorem handle_headers_shape (st : ServerState) (req : Request) :
    ∃ base, (handle st req).headers = end_headers base := by
  unfold handle
  by_cases hg : req.method = "GET"
  · rw [if_pos hg]
    exact super_do_GET_headers_shape st (rewritePath req.path)
  · rw [if_neg hg]
    by_cases hh : req.method = "HEAD"
    · rw [if_pos hh]
      unfold super_do_HEAD
      obtain ⟨base, hb⟩ := super_do_GET_headers_shape st req.path
      exact ⟨base, hb⟩
    · rw [if_neg hh]
      exact ⟨_, rfl⟩

/-! ## Claims -/

/-- C1: for a GET request, the path "/" is rewritten to "/videos.json"
before file resolution, and every other path reaches the inherited
file-serving handler unmodified; the rewrite is a literal, case-sensitive,
exact match. -/
theorem root_rewrite_exact (st : ServerState) (p : String) (hp : p ≠ "/") :
    handle st { method := "GET", path := "/" } = super_do_GET st "/videos.json" ∧
    handle st { method := "GET", path := p } = super_do_GET st p := by
  constructor
  · rfl
  · have h1 : handle st { method := "GET", path := p } =
        super_do_GET st (rewritePath p) := rfl
    rw [h1]
    unfold rewritePath
    rw [if_neg hp]

/-- Witness for C1 at the paths "/videos.json" and "//": both pass
through unmodified. -/
theorem root_rewrite_exact_witness :
    handle jsonState { method := "GET", path := "/videos.json" } =
      super_do_GET jsonState "/videos.json" ∧
    handle jsonState { method := "GET", path := "//" } =
      super_do_GET jsonState "//" :=
  ⟨(root_rewrite_exact jsonState "/videos.json" (by decide)).2,
   (root_rewrite_exact jsonState "//" (by decide)).2⟩

/-- C2: every response the server emits, for every method, path and
outcome, carries the three fixed headers with exactly the specified
values. -/
theorem fixed_headers_on_every_response (st : ServerState) (req : Request) :
    ("Access-Control-Allow-Origin", "*") ∈ (handle st req).headers ∧
    ("Access-Control-Allow-Methods", "GET") ∈ (handle st req).headers ∧
    ("Cache-Control", "no-store, no-cache, must-revalidate") ∈ (handle st req).headers := by
  obtain ⟨base, hb⟩ := handle_headers_shape st req
  rw [hb]
  exact ⟨mem_end_headers (by decide) base,
         mem_end_headers (by decide) base,
         mem_end_headers (by decide) base⟩

/-- C3: for any fixed disk, the body of the response to GET "/" is
byte-identical to the body of the response to GET "/videos.json". -/
theorem root_body_eq_videos_json (st : ServerState) :
    (handle st { method := "GET", path := "/" }).body =
    (handle st { method := "GET", path := "/videos.json" }).body := rfl

/-- C4: when videos.json does not exist in the working directory, GET "/"
and GET "/videos.json" both return 404, and the three fixed headers are
still attached. -/
theorem missing_videos_json_404 (st : ServerState)
    (h : resolve st "/videos.json" = none) :
    (handle st { method := "GET", path := "/" }).status = 404 ∧
    (handle st { method := "GET", path := "/videos.json" }).status = 404 ∧
    (∀ hd ∈ corsHeaders, hd ∈ (handle st { method := "GET", path := "/" }).headers) ∧
    (∀ hd ∈ corsHeaders, hd ∈ (handle st { method := "GET", path := "/videos.json" }).headers) := by
  have e1 : handle st { method := "GET", path := "/" } =
      super_do_GET st "/videos.json" := rfl
  have e2 : handle st { method := "GET", path := "/videos.json" } =
      super_do_GET st "/videos.json" := rfl
  have e3 : super_do_GET st "/videos.json" =
      { status := 404
        headers := end_headers [("Content-Type", "text/html;charset=utf-8")]
        body := notFoundBody } := by
    unfold super_do_GET
    rw [h]
  refine ⟨?_, ?_, ?_, ?_⟩
  · rw [e1, e3]
  · rw [e2, e3]
  · intro hd hhd
    rw [e1, e3]
    exact mem_end_headers hhd _
  · intro hd hhd
    rw [e2, e3]
    exact mem_end_headers hhd _

/-- Witness for C4 on the empty disk. -/
theorem missing_videos_json_404_witness :
    (handle emptyState { method := "GET", path := "/" }).status = 404 ∧
    (handle emptyState { method := "GET", path := "/videos.json" }).status = 404 :=
  ⟨(missing_videos_json_404 emptyState rfl).1,
   (missing_videos_json_404 emptyState rfl).2.1⟩

/-- C5: a GET request whose (rewritten) path resolves to an existing file
gets status 200, the file's bytes as body, a Content-Type inferred from
the extension (application/json for .json), and a Content-Length equal to
the exact byte count of the file. -/
theorem served_file_200 (st : ServerState) (p : String) (bs : List Byte)
    (h : resolve st (rewritePath p) = some bs) :
    (handle st { method := "GET", path := p }).status = 200 ∧
    (handle st { method := "GET", path := p }).body = bs ∧
    ("Content-Type", guess_type (rewritePath p)) ∈
      (handle st { method := "GET", path := p }).headers ∧
    ("Content-Length", toString bs.length) ∈
      (handle st { method := "GET", path := p }).headers ∧
    (∀ q : String, List.isSuffixOf ".json".data q.data = true →
      guess_type q = "application/json") := by
  have e1 : handle st { method := "GET", path := p } =
      super_do_GET st (rewritePath p) := rfl
  have e2 : super_do_GET st (rewritePath p) =
      { status := 200
        headers := end_headers
          [("Content-Type", guess_type (rewritePath p)),
           ("Content-Length", toString bs.length)]
        body := bs } := by
    unfold super_do_GET
    rw [h]
  refine ⟨by rw [e1, e2], by rw [e1, e2], ?_, ?_, ?_⟩
  · rw [e1, e2]
    exact List.mem_append.mpr (Or.inl (by simp))
  · rw [e1, e2]
    exact List.mem_append.mpr (Or.inl (by simp))
  · intro q hq
    unfold guess_type
    simp [hq]

/-- Witness for C5: GET "/" over a disk holding /srv/videos.json with the
two bytes of "\x7b\x7d". -/
theorem served_file_200_witness :
    (handle jsonState { method := "GET", path := "/" }).status = 200 ∧
    (handle jsonState { method := "GET", path := "/" }).body = [123, 125] :=
  ⟨(served_file_200 jsonState "/" [123, 125] (by decide)).1,
   (served_file_200 jsonState "/" [123, 125] (by decide)).2.1⟩

/-- C6: handling a request has no side effect beyond the response: the
server state (disk, working directory, listening port) is returned
unchanged, and every filesystem operation in the handling trace is a
read. -/
theorem handling_no_side_effects (st : ServerState) (req : Request) :
    (handleST st req).2 = st ∧
    (handleST st req).1 = handle st req ∧
    ∀ op ∈ handleOps st req, ∃ q, op = FSOp.read q := by
  refine ⟨rfl, rfl, ?_⟩
  intro op hop
  unfold handleOps at hop
  by_cases hg : req.method = "GET"
  · rw [if_pos hg] at hop
    simp only [List.mem_singleton] at hop
    exact ⟨_, hop⟩
  · rw [if_neg hg] at hop
    by_cases hh : req.method = "HEAD"
    · rw [if_pos hh] at hop
      simp only [List.mem_singleton] at hop
      exact ⟨_, hop⟩
    · rw [if_neg hh] at hop
      simp at hop

/-- Witness for C6: a GET "/" leaves the concrete state untouched. -/
theorem handling_no_side_effects_witness :
    (handleST jsonState { method := "GET", path := "/" }).2 = jsonState :=
  (handling_no_side_effects jsonState { method := "GET", path := "/" }).1

/-- C7: a POST to /videos.json falls to the default method rejection and
gets status 501, which in particular is never 200. -/
theorem post_not_supported (st : ServerState) :
    (handle st { method := "POST", path := "/videos.json" }).status = 501 ∧
    (handle st { method := "POST", path := "/videos.json" }).status ≠ 200 := by
  have h501 : (handle st { method := "POST", path := "/videos.json" }).status = 501 := rfl
  constructor
  · exact h501
  · rw [h501]
    decide

/-- C8: at startup the working directory becomes the directory containing
the script, so the same disk yields the same behavior whatever the
caller's current directory was, and the relative name videos.json
resolves inside the script's directory. -/
theorem chdir_script_dir (c1 c2 f : String) (d : Disk)
    (hf : startsWithSlash f = true) :
    (startup c1 f d).cwd = dirname f ∧
    (startup c1 f d).cwd = (startup c2 f d).cwd ∧
    (∀ req, handle (startup c1 f d) req = handle (startup c2 f d) req) ∧
    resolve (startup c1 f d) "/videos.json" = d (dirname f ++ "/" ++ "videos.json") := by
  have ha : abspath c1 f = f := by
    unfold abspath
    rw [if_pos hf]
  have hb : abspath c2 f = f := by
    unfold abspath
    rw [if_pos hf]
  have hs : startup c1 f d = startup c2 f d := by
    unfold startup
    rw [ha, hb]
  refine ⟨?_, ?_, ?_, ?_⟩
  · show dirname (abspath c1 f) = dirname f
    rw [ha]
  · rw [hs]
  · intro req
    rw [hs]
  · show d (dirname (abspath c1 f) ++ "/" ++ stripLeadingSlash "/videos.json") = _
    rw [ha]
    rfl

/-- Witness for C8 with the script at /srv/serve-videos.py and two
different caller directories. -/
theorem chdir_script_dir_witness :
    (startup "/tmp" "/srv/serve-videos.py" jsonDisk).cwd =
      dirname "/srv/serve-videos.py" ∧
    (startup "/tmp" "/srv/serve-videos.py" jsonDisk).cwd =
      (startup "/home/me" "/srv/serve-videos.py" jsonDisk).cwd :=
  ⟨(chdir_script_dir "/tmp" "/home/me" "/srv/serve-videos.py" jsonDisk (by decide)).1,
   (chdir_script_dir "/tmp" "/home/me" "/srv/serve-videos.py" jsonDisk (by decide)).2.1⟩

/-- C9 (counterexample): startup does not print exactly two lines. -/
theorem startup_lines_not_two : ¬ startupLines.length = 2 := by decide

/-- C9 (amended): startup prints exactly three informational lines -- the
listening port, the full URL for the JSON endpoint, and an instruction to
stop the server. -/
theorem startup_prints_three_lines :
    startupLines.length = 3 ∧
    startupLines = [
      "Starting HTTP server on port 8000...",
      "Videos JSON available at: http://localhost:8000/videos.json",
      "Press Ctrl+C to stop the server"] :=
  ⟨rfl, by decide⟩

/-- C10: the "/" rewrite applies only to GET: a HEAD request is handled
against the literal path by the inherited handler, so when "/" resolves
to nothing while "/videos.json" exists, HEAD "/" is 404 while GET "/" is
200. -/
theorem rewrite_only_GET (st : ServerState) (bs : List Byte)
    (h0 : resolve st "/" = none) (h1 : resolve st "/videos.json" = some bs) :
    (∀ p, handle st { method := "HEAD", path := p } = super_do_HEAD st p) ∧
    (handle st { method := "HEAD", path := "/" }).status = 404 ∧
    (handle st { method := "GET", path := "/" }).status = 200 := by
  refine ⟨fun p => rfl, ?_, ?_⟩
  · have e : (handle st { method := "HEAD", path := "/" }).status =
        (super_do_GET st "/").status := rfl
    rw [e]
    unfold super_do_GET
    rw [h0]
  · have e : handle st { method := "GET", path := "/" } =
        super_do_GET st "/videos.json" := rfl
    rw [e]
    unfold super_do_GET
    rw [h1]

/-- Witness for C10 over the disk holding only /srv/videos.json. -/
theorem rewrite_only_GET_witness :
    (handle jsonState { method := "HEAD", path := "/" }).status = 404 ∧
    (handle jsonState { method := "GET", path := "/" }).status = 200 :=
  ⟨(rewrite_only_GET jsonState [123, 125] (by decide) (by decide)).2.1,
   (rewrite_only_GET jsonState [123, 125] (by decide) (by decide)).2.2⟩

end ServeVideos
